import Mathlib

/-!
Shallow embedding of the warehouse product-editing UI:
the product detail view (`src/src/pages/warehouse/products/ProductDetails.tsx`)
and the product actions modal (`src/unnamed/part_000`, `ProductActionsModal`).

The external document store (Firestore) is modelled as an explicit `Store`
value: a keyed list of product documents plus an append-only movement list.
An asynchronous write that may reject is modelled by a Boolean success flag
passed to the handler; `serverTimestamp()` is modelled by a `Nat` clock value
supplied at the call. Notifications and navigation calls are collected as
explicit effect lists. Numbers are modelled as `Int` (the code uses ordinary
JS arithmetic: comparison, subtraction, `Math.abs`, multiplication).
-/

namespace App155

/-- A product record as used by both components (fields of `types/product`
that this code reads or writes). -/
structure Product where
  id : String
  name : String
  category : String
  quantity : Int
  unit : String
  averagePurchasePrice : Int
  totalPurchasePrice : Int
  image : Option String
  minQuantity : Option Int
  deriving DecidableEq, Repr

/-- The stored document for a product in the `products` collection:
exactly the fields the two `handleSave` functions write via `updateDoc`. -/
structure StoredProduct where
  quantity : Int
  averagePurchasePrice : Int
  totalPurchasePrice : Int
  updatedAt : Nat
  deriving DecidableEq, Repr

/-- One entry of the `productMovements` collection, with the exact fields
written by `ProductDetails.handleSave` via `setDoc`. -/
structure Movement where
  productId : String
  type : String
  quantity : Int
  price : Int
  totalPrice : Int
  date : Nat
  description : String
  warehouse : String
  previousQuantity : Int
  newQuantity : Int
  previousAveragePrice : Int
  newAveragePrice : Int
  deriving DecidableEq, Repr

/-- The external document store: the `products` collection keyed by id and
the append-only `productMovements` collection. -/
structure Store where
  products : List (String × StoredProduct)
  movements : List Movement
  deriving DecidableEq, Repr

/-- Effect of `updateDoc(doc(db, 'products', pid), {quantity, averagePurchasePrice,
totalPurchasePrice, updatedAt: serverTimestamp()})` on the store. -/
def updateProductDoc (store : Store) (pid : String) (q p t : Int) (now : Nat) : Store :=
  { store with
    products := store.products.map (fun kv =>
      if kv.1 = pid then
        (kv.1, { quantity := q, averagePurchasePrice := p, totalPurchasePrice := t,
                 updatedAt := now })
      else kv) }

/-- Read a stored product document by id. -/
def findDoc (store : Store) (pid : String) : Option StoredProduct :=
  (store.products.find? (fun kv => kv.1 = pid)).map (fun kv => kv.2)

/-- A user-visible toast: `showSuccessNotification` / `showErrorNotification`. -/
inductive Notice where
  | success (msg : String)
  | error (msg : String)
  deriving DecidableEq, Repr

/-! ### Product detail view (`ProductDetails.tsx`) -/

/-- The `useState` cells of the `ProductDetails` component. -/
structure DetailState where
  product : Option Product
  showHistory : Bool
  activeCode : String
  loading : Bool
  isEditing : Bool
  editedQuantity : Int
  editedPrice : Int
  showPasswordPrompt : Bool
  isFocused : Bool
  deriving DecidableEq, Repr

/-- The `useState` initial values of `ProductDetails`. -/
def initialDetailState : DetailState :=
  { product := none
    showHistory := false
    activeCode := "qrcode"
    loading := true
    isEditing := false
    editedQuantity := 0
    editedPrice := 0
    showPasswordPrompt := false
    isFocused := false }

/-- The `loadProduct` effect run on mount (with an id present): the store read
either throws (`Except.error`), finds no document (`Except.ok none`), or yields
a product. In the success case the product and the edit fields are set; the
error case only logs; `finally` clears `loading` in every case. -/
def loadProduct (s : DetailState) (res : Except Unit (Option Product)) : DetailState :=
  match res with
  | Except.ok (some p) =>
      { s with product := some p
               editedQuantity := p.quantity
               editedPrice := p.averagePurchasePrice
               loading := false }
  | Except.ok none => { s with loading := false }
  | Except.error _ => { s with loading := false }

/-- What the component renders, at the granularity the claims need. -/
inductive DetailScreen where
  | spinner
  | notFound
  | details (p : Product)
  deriving DecidableEq, Repr

/-- The top-level render branches of `ProductDetails`: spinner while loading,
not-found when `product` is null, otherwise the detail card. -/
def renderDetail (s : DetailState) : DetailScreen :=
  if s.loading then DetailScreen.spinner
  else
    match s.product with
    | none => DetailScreen.notFound
    | some p => DetailScreen.details p

/-- The total purchase price shown in the detail card:
`product.quantity * (product.averagePurchasePrice || 0)`, recomputed at render. -/
def displayedTotal (p : Product) : Int :=
  p.quantity * p.averagePurchasePrice

/-- The movement record written by `ProductDetails.handleSave`, computed from
the previous product values and the edited quantity/price. -/
def mkMovement (p : Product) (newQty newPrice : Int) (now : Nat) : Movement :=
  { productId := p.id
    type := if newQty > p.quantity then "in" else "out"
    quantity := |newQty - p.quantity|
    price := newPrice
    totalPrice := |newQty - p.quantity| * newPrice
    date := now
    description := "Ручная корректировка количества"
    warehouse := "Основной склад"
    previousQuantity := p.quantity
    newQuantity := newQty
    previousAveragePrice := p.averagePurchasePrice
    newAveragePrice := newPrice }

/-- Result of a detail-view save: the new component state, the new store,
and the notifications shown. -/
structure SaveResult where
  state : DetailState
  store : Store
  notices : List Notice
  deriving DecidableEq, Repr

/-- `ProductDetails.handleSave`. `updateOk` models whether the `updateDoc`
promise resolves, `movementOk` whether the `setDoc` promise resolves; a
rejection at either point jumps to the `catch` block. -/
def handleSave (updateOk movementOk : Bool) (now : Nat)
    (s : DetailState) (store : Store) : SaveResult :=
  match s.product with
  | none => { state := s, store := store, notices := [] }
  | some product =>
      if s.editedQuantity < 0 then
        { state := s, store := store
          notices := [Notice.error "Количество товара не может быть отрицательным"] }
      else if s.editedPrice < 0 then
        { state := s, store := store
          notices := [Notice.error "Цена товара не может быть отрицательной"] }
      else if updateOk = false then
        { state := s, store := store
          notices := [Notice.error "Ошибка при обновлении количества товара"] }
      else
        let store1 := updateProductDoc store product.id s.editedQuantity s.editedPrice
          (s.editedQuantity * s.editedPrice) now
        let s1 := { s with product := some { product with
          quantity := s.editedQuantity
          averagePurchasePrice := s.editedPrice
          totalPurchasePrice := s.editedQuantity * s.editedPrice } }
        if movementOk = false then
          { state := s1, store := store1
            notices := [Notice.error "Ошибка при обновлении количества товара"] }
        else
          let store2 := { store1 with
            movements := store1.movements ++ [mkMovement product s.editedQuantity s.editedPrice now] }
          { state := { s1 with isEditing := false }, store := store2
            notices := [Notice.success "Количество товара успешно обновлено"] }

/-- UI events of the `ProductDetails` component. `save` carries the success
flags of the two store writes and the server timestamp of the attempt. -/
inductive DEvent where
  | editClick
  | passwordSuccess
  | passwordClose
  | cancelEdit
  | setQuantity (q : Int)
  | setPrice (p : Int)
  | save (updateOk movementOk : Bool) (now : Nat)
  deriving DecidableEq, Repr

/-- One UI event of the detail view, acting on component state and store and
emitting the notifications of that event. Each branch is the corresponding
handler of `ProductDetails`. -/
def detailStep (e : DEvent) (c : DetailState × Store) : (DetailState × Store) × List Notice :=
  match e with
  | DEvent.editClick => (({ c.1 with showPasswordPrompt := true }, c.2), [])
  | DEvent.passwordSuccess =>
      (({ c.1 with showPasswordPrompt := false, isEditing := true }, c.2), [])
  | DEvent.passwordClose => (({ c.1 with showPasswordPrompt := false }, c.2), [])
  | DEvent.cancelEdit => (({ c.1 with isEditing := false }, c.2), [])
  | DEvent.setQuantity q => (({ c.1 with editedQuantity := q }, c.2), [])
  | DEvent.setPrice p => (({ c.1 with editedPrice := p }, c.2), [])
  | DEvent.save u m now =>
      let r := handleSave u m now c.1 c.2
      ((r.state, r.store), r.notices)

/-- Run a sequence of detail-view events, keeping state and store. -/
def runDetail (es : List DEvent) (c : DetailState × Store) : DetailState × Store :=
  es.foldl (fun c e => (detailStep e c).1) c

/-! ### Product actions modal (`ProductActionsModal`) -/

/-- The `useState` cells of `ProductActionsModal`, together with the `isOpen`
prop (driven by the parent and by the `onClose` callback). -/
structure ModalState where
  isOpen : Bool
  showMoveFolder : Bool
  showMovement : Bool
  showStock : Bool
  showDelete : Bool
  showExpenseQuantity : Bool
  showIncomeQuantity : Bool
  showPasswordPrompt : Bool
  isEditing : Bool
  editedQuantity : Int
  editedPrice : Int
  deriving DecidableEq, Repr

/-- Initial modal state for a given product: all dialogs closed, edit fields
seeded from `product.quantity` and `product.averagePurchasePrice`. -/
def initModal (product : Product) : ModalState :=
  { isOpen := false
    showMoveFolder := false
    showMovement := false
    showStock := false
    showDelete := false
    showExpenseQuantity := false
    showIncomeQuantity := false
    showPasswordPrompt := false
    isEditing := false
    editedQuantity := product.quantity
    editedPrice := product.averagePurchasePrice }

/-- Payload carried to the expense/income creation route:
`state.addedProduct = { product, quantity }`. -/
structure NavPayload where
  product : Product
  quantity : Int
  deriving DecidableEq, Repr

/-- Observable effects of the modal: toasts and `navigate(path, {state})` calls. -/
inductive MEffect where
  | notice (n : Notice)
  | navigate (path : String) (payload : NavPayload)
  deriving DecidableEq, Repr

/-- Result of one modal handler: new state, new store, emitted effects. -/
structure MResult where
  state : ModalState
  store : Store
  effects : List MEffect
  deriving DecidableEq, Repr

/-- `ProductActionsModal.handleSave`: validates non-negativity, then writes the
product fields via `updateDoc` (success modelled by `ok`), shows a success
toast and calls `onClose()`. It appends nothing to `productMovements`. -/
def modalHandleSave (ok : Bool) (now : Nat) (product : Product)
    (s : ModalState) (store : Store) : MResult :=
  if s.editedQuantity < 0 then
    { state := s, store := store
      effects := [MEffect.notice (Notice.error "Количество не может быть отрицательным")] }
  else if s.editedPrice < 0 then
    { state := s, store := store
      effects := [MEffect.notice (Notice.error "Цена не может быть отрицательной")] }
  else if ok = false then
    { state := s, store := store
      effects := [MEffect.notice (Notice.error "Ошибка при обновлении товара")] }
  else
    { state := { s with isOpen := false }
      store := updateProductDoc store product.id s.editedQuantity s.editedPrice
        (s.editedQuantity * s.editedPrice) now
      effects := [MEffect.notice (Notice.success "Товар успешно обновлен")] }

/-- `handleExpenseQuantityConfirm`: navigates to the expense-creation route
with the product and chosen quantity, then calls `onClose()`; no store write. -/
def handleExpenseQuantityConfirm (product : Product) (q : Int)
    (s : ModalState) (store : Store) : MResult :=
  { state := { s with isOpen := false }
    store := store
    effects := [MEffect.navigate "/warehouse/expense/new"
      { product := product, quantity := q }] }

/-- `handleIncomeQuantityConfirm`: same as the expense confirm but targeting
the income-creation route. -/
def handleIncomeQuantityConfirm (product : Product) (q : Int)
    (s : ModalState) (store : Store) : MResult :=
  { state := { s with isOpen := false }
    store := store
    effects := [MEffect.navigate "/warehouse/income/new"
      { product := product, quantity := q }] }

/-- UI events of `ProductActionsModal`: the outer open/close, the seven action
buttons, closing each sub-dialog, the password prompt callbacks, the inline
edit form, and the quantity-dialog confirms. -/
inductive MEvent where
  | openMenu
  | closeMenu
  | clickEdit
  | passwordSuccess
  | passwordClose
  | clickMoveFolder
  | clickMovement
  | clickStock
  | clickDelete
  | clickExpense
  | clickIncome
  | closeMoveFolder
  | closeMovement
  | closeStock
  | closeDelete
  | closeExpense
  | closeIncome
  | confirmExpense (q : Int)
  | confirmIncome (q : Int)
  | cancelEdit
  | saveInline (ok : Bool) (now : Nat)
  | setQty (q : Int)
  | setPrice (p : Int)
  deriving DecidableEq, Repr

/-- One UI event of the actions modal; each branch is the corresponding
handler or `useState` setter of `ProductActionsModal`. -/
def modalStep (product : Product) (e : MEvent) (c : ModalState × Store) :
    (ModalState × Store) × List MEffect :=
  match e with
  | MEvent.openMenu => (({ c.1 with isOpen := true }, c.2), [])
  | MEvent.closeMenu => (({ c.1 with isOpen := false }, c.2), [])
  | MEvent.clickEdit => (({ c.1 with showPasswordPrompt := true }, c.2), [])
  | MEvent.passwordSuccess =>
      (({ c.1 with showPasswordPrompt := false, isEditing := true }, c.2), [])
  | MEvent.passwordClose => (({ c.1 with showPasswordPrompt := false }, c.2), [])
  | MEvent.clickMoveFolder => (({ c.1 with showMoveFolder := true }, c.2), [])
  | MEvent.clickMovement => (({ c.1 with showMovement := true }, c.2), [])
  | MEvent.clickStock => (({ c.1 with showStock := true }, c.2), [])
  | MEvent.clickDelete => (({ c.1 with showDelete := true }, c.2), [])
  | MEvent.clickExpense => (({ c.1 with showExpenseQuantity := true }, c.2), [])
  | MEvent.clickIncome => (({ c.1 with showIncomeQuantity := true }, c.2), [])
  | MEvent.closeMoveFolder => (({ c.1 with showMoveFolder := false }, c.2), [])
  | MEvent.closeMovement => (({ c.1 with showMovement := false }, c.2), [])
  | MEvent.closeStock => (({ c.1 with showStock := false }, c.2), [])
  | MEvent.closeDelete => (({ c.1 with showDelete := false }, c.2), [])
  | MEvent.closeExpense => (({ c.1 with showExpenseQuantity := false }, c.2), [])
  | MEvent.closeIncome => (({ c.1 with showIncomeQuantity := false }, c.2), [])
  | MEvent.confirmExpense q =>
      let r := handleExpenseQuantityConfirm product q c.1 c.2
      ((r.state, r.store), r.effects)
  | MEvent.confirmIncome q =>
      let r := handleIncomeQuantityConfirm product q c.1 c.2
      ((r.state, r.store), r.effects)
  | MEvent.cancelEdit => (({ c.1 with isEditing := false }, c.2), [])
  | MEvent.saveInline ok now =>
      let r := modalHandleSave ok now product c.1 c.2
      ((r.state, r.store), r.effects)
  | MEvent.setQty q => (({ c.1 with editedQuantity := q }, c.2), [])
  | MEvent.setPrice p => (({ c.1 with editedPrice := p }, c.2), [])

/-- Run a sequence of modal events, keeping state and store. -/
def runModal (product : Product) (es : List MEvent) (c : ModalState × Store) :
    ModalState × Store :=
  es.foldl (fun c e => (modalStep product e c).1) c

/-- The abstract phases of the spec's per-menu-instance state machine. -/
inductive Phase where
  | Closed
  | MenuOpen
  | EditingInline
  | AwaitingPassword
  | SubDialogOpen
  deriving DecidableEq, Repr

/-- Whether any of the six sub-dialog modals is open. -/
def anySubDialog (s : ModalState) : Bool :=
  s.showMoveFolder || s.showMovement || s.showStock || s.showDelete ||
    s.showExpenseQuantity || s.showIncomeQuantity

/-- Abstraction of a modal state to the spec's phase: nothing renders when the
outer modal is closed; the inline edit form replaces the action list; the
password prompt overlays the list; otherwise a sub-dialog or the bare menu. -/
def modalPhase (s : ModalState) : Phase :=
  if !s.isOpen then Phase.Closed
  else if s.isEditing then Phase.EditingInline
  else if s.showPasswordPrompt then Phase.AwaitingPassword
  else if anySubDialog s then Phase.SubDialogOpen
  else Phase.MenuOpen

/-! ### Concrete fixtures used by witnesses and counterexamples -/

/-- A concrete product matching the spec's scenario (quantity 10, price 100). -/
def sampleProduct : Product :=
  { id := "p1"
    name := "Цемент"
    category := "Материалы"
    quantity := 10
    unit := "шт"
    averagePurchasePrice := 100
    totalPurchasePrice := 1000
    image := none
    minQuantity := none }

/-- A concrete store holding only `sampleProduct`, with an empty movement log. -/
def sampleStore : Store :=
  { products := [("p1",
      { quantity := 10, averagePurchasePrice := 100, totalPurchasePrice := 1000,
        updatedAt := 0 })]
    movements := [] }

/-- Detail-view state in edit mode with the scenario's edit (15, 120). -/
def sampleDetailState : DetailState :=
  { product := some sampleProduct
    showHistory := false
    activeCode := "qrcode"
    loading := false
    isEditing := true
    editedQuantity := 15
    editedPrice := 120
    showPasswordPrompt := false
    isFocused := false }

/-- Modal state in inline-edit mode with the scenario's edit (15, 120). -/
def sampleModalState : ModalState :=
  { isOpen := true
    showMoveFolder := false
    showMovement := false
    showStock := false
    showDelete := false
    showExpenseQuantity := false
    showIncomeQuantity := false
    showPasswordPrompt := false
    isEditing := true
    editedQuantity := 15
    editedPrice := 120 }

/-! ### Helper lemmas -/

/-- A detail-view save never turns `isEditing` on. -/
lemma handleSave_isEditing (u m : Bool) (now : Nat) (s : DetailState) (store : Store) :
    (handleSave u m now s store).state.isEditing = true → s.isEditing = true := by
  unfold handleSave
  split
  · exact fun h => h
  · split_ifs <;> intro h <;> simp_all

/-- A single detail-view event makes `isEditing` true only if it already was,
or the event is the password-success callback. -/
lemma detailStep_isEditing (e : DEvent) (c : DetailState × Store) :
    (detailStep e c).1.1.isEditing = true →
      c.1.isEditing = true ∨ e = DEvent.passwordSuccess := by
  cases e with
  | save u m now =>
      intro h
      exact Or.inl (handleSave_isEditing u m now c.1 c.2 h)
  | passwordSuccess => exact fun _ => Or.inr rfl
  | editClick => exact fun h => Or.inl h
  | passwordClose => exact fun h => Or.inl h
  | cancelEdit => intro h; simp [detailStep] at h
  | setQuantity q => exact fun h => Or.inl h
  | setPrice p => exact fun h => Or.inl h

/-- Over any detail-view event sequence, `isEditing` can only become true via
a password-success event. -/
lemma runDetail_isEditing (es : List DEvent) (c : DetailState × Store) :
    (runDetail es c).1.isEditing = true →
      c.1.isEditing = true ∨ DEvent.passwordSuccess ∈ es := by
  induction es generalizing c with
  | nil => exact fun h => Or.inl h
  | cons e es ih =>
      intro h
      have h1 : (runDetail es (detailStep e c).1).1.isEditing = true := by
        simpa [runDetail] using h
      rcases ih (detailStep e c).1 h1 with h2 | h2
      · rcases detailStep_isEditing e c h2 with h3 | h3
        · exact Or.inl h3
        · exact Or.inr (by simp [h3])
      · exact Or.inr (List.mem_cons_of_mem e h2)

/-- A modal inline save never changes `isEditing`. -/
lemma modalHandleSave_isEditing (ok : Bool) (now : Nat) (product : Product)
    (s : ModalState) (store : Store) :
    (modalHandleSave ok now product s store).state.isEditing = s.isEditing := by
  unfold modalHandleSave
  split
  · rfl
  · split
    · rfl
    · split
      · rfl
      · rfl

/-- A single modal event makes `isEditing` true only if it already was, or the
event is the password-success callback. -/
lemma modalStep_isEditing (product : Product) (e : MEvent) (c : ModalState × Store) :
    (modalStep product e c).1.1.isEditing = true →
      c.1.isEditing = true ∨ e = MEvent.passwordSuccess := by
  cases e with
  | saveInline ok now =>
      intro h
      rw [show (modalStep product (MEvent.saveInline ok now) c).1.1
            = (modalHandleSave ok now product c.1 c.2).state from rfl,
          modalHandleSave_isEditing] at h
      exact Or.inl h
  | passwordSuccess => exact fun _ => Or.inr rfl
  | cancelEdit => intro h; simp [modalStep] at h
  | openMenu => exact fun h => Or.inl h
  | closeMenu => exact fun h => Or.inl h
  | clickEdit => exact fun h => Or.inl h
  | passwordClose => exact fun h => Or.inl h
  | clickMoveFolder => exact fun h => Or.inl h
  | clickMovement => exact fun h => Or.inl h
  | clickStock => exact fun h => Or.inl h
  | clickDelete => exact fun h => Or.inl h
  | clickExpense => exact fun h => Or.inl h
  | clickIncome => exact fun h => Or.inl h
  | closeMoveFolder => exact fun h => Or.inl h
  | closeMovement => exact fun h => Or.inl h
  | closeStock => exact fun h => Or.inl h
  | closeDelete => exact fun h => Or.inl h
  | closeExpense => exact fun h => Or.inl h
  | closeIncome => exact fun h => Or.inl h
  | confirmExpense q => exact fun h => Or.inl h
  | confirmIncome q => exact fun h => Or.inl h
  | setQty q => exact fun h => Or.inl h
  | setPrice p => exact fun h => Or.inl h

/-- Over any modal event sequence, `isEditing` can only become true via a
password-success event. -/
lemma runModal_isEditing (product : Product) (es : List MEvent) (c : ModalState × Store) :
    (runModal product es c).1.isEditing = true →
      c.1.isEditing = true ∨ MEvent.passwordSuccess ∈ es := by
  induction es generalizing c with
  | nil => exact fun h => Or.inl h
  | cons e es ih =>
      intro h
      have h1 : (runModal product es (modalStep product e c).1).1.isEditing = true := by
        simpa [runModal] using h
      rcases ih (modalStep product e c).1 h1 with h2 | h2
      · rcases modalStep_isEditing product e c h2 with h3 | h3
        · exact Or.inl h3
        · exact Or.inr (by simp [h3])
      · exact Or.inr (List.mem_cons_of_mem e h2)

/-- Updating the entry for `pid` in a keyed list and then looking `pid` up
yields the new document, provided the key was present. -/
lemma find_update_list (l : List (String × StoredProduct)) (pid : String)
    (nd : StoredProduct) (kv0 : String × StoredProduct)
    (h : l.find? (fun kv => kv.1 = pid) = some kv0) :
    (l.map (fun kv => if kv.1 = pid then (kv.1, nd) else kv)).find?
        (fun kv => kv.1 = pid) = some (pid, nd) := by
  induction l with
  | nil => simp at h
  | cons kv l ih =>
      by_cases hkv : kv.1 = pid
      · simp [List.find?_cons, hkv]
      · have h' : l.find? (fun kv => kv.1 = pid) = some kv0 := by
          simpa [List.find?_cons, hkv] using h
        simpa [List.find?_cons, hkv] using ih h'

/-- `updateDoc` followed by a read of the same id returns exactly the written
fields, when the document exists. -/
lemma findDoc_updateProductDoc (store : Store) (pid : String) (q pr t : Int)
    (now : Nat) (d : StoredProduct) (hd : findDoc store pid = some d) :
    findDoc (updateProductDoc store pid q pr t now) pid =
      some { quantity := q, averagePurchasePrice := pr, totalPurchasePrice := t,
             updatedAt := now } := by
  unfold findDoc at hd ⊢
  unfold updateProductDoc
  rcases hfind : store.products.find? (fun kv => kv.1 = pid) with _ | kv0
  · rw [hfind] at hd; simp at hd
  · rw [find_update_list store.products pid _ kv0 hfind]
    rfl

/-- Characterization of the `MenuOpen` phase. -/
lemma modalPhase_menuOpen_iff (s : ModalState) :
    modalPhase s = Phase.MenuOpen ↔
      s.isOpen = true ∧ s.isEditing = false ∧ s.showPasswordPrompt = false ∧
        anySubDialog s = false := by
  unfold modalPhase
  split_ifs <;> simp_all

/-- Characterization of the `AwaitingPassword` phase. -/
lemma modalPhase_awaiting_iff (s : ModalState) :
    modalPhase s = Phase.AwaitingPassword ↔
      s.isOpen = true ∧ s.isEditing = false ∧ s.showPasswordPrompt = true := by
  unfold modalPhase
  split_ifs <;> simp_all

/-- The `EditingInline` phase implies the inline edit form is active. -/
lemma modalPhase_editing (s : ModalState) :
    modalPhase s = Phase.EditingInline → s.isEditing = true := by
  unfold modalPhase
  split_ifs <;> simp_all

/-! ### Claims -/

/-- Claim C10: a failed product load (the store read throws) produces the same
state as an absent product — the error is only logged, `product` stays `null`,
and the not-found screen is rendered — so the two cases are indistinguishable
to the user. -/
theorem C10_load_failure_matches_absent (s : DetailState) :
    loadProduct s (Except.error ()) = loadProduct s (Except.ok none) ∧
    (loadProduct initialDetailState (Except.error ())).product = none ∧
    renderDetail (loadProduct initialDetailState (Except.error ())) =
      DetailScreen.notFound :=
  ⟨rfl, rfl, rfl⟩

/-- Claim C5: confirming the expense (resp. income) quantity dialog with
quantity `q` performs no store write, emits exactly one navigation to the
expense-creation (resp. income-creation) route with payload
`{product, quantity := q}`, and closes the menu. -/
theorem C5_quantity_confirm_navigates_only (product : Product) (q : Int)
    (s : ModalState) (store : Store) :
    (handleExpenseQuantityConfirm product q s store).store = store ∧
    (handleExpenseQuantityConfirm product q s store).effects =
      [MEffect.navigate "/warehouse/expense/new" { product := product, quantity := q }] ∧
    (handleExpenseQuantityConfirm product q s store).state = { s with isOpen := false } ∧
    (handleIncomeQuantityConfirm product q s store).store = store ∧
    (handleIncomeQuantityConfirm product q s store).effects =
      [MEffect.navigate "/warehouse/income/new" { product := product, quantity := q }] ∧
    (handleIncomeQuantityConfirm product q s store).state = { s with isOpen := false } :=
  ⟨rfl, rfl, rfl, rfl, rfl, rfl⟩

/-- Claim C2: any save attempt, in either component, with a negative edited
quantity or price writes nothing to the store, leaves the component state
unchanged, and shows exactly one error notification. -/
theorem C2_negative_save_rejected (u m : Bool) (now now2 : Nat) (s : DetailState)
    (store store2 : Store) (p product : Product) (ok : Bool) (ms : ModalState)
    (hp : s.product = some p)
    (hneg : s.editedQuantity < 0 ∨ s.editedPrice < 0)
    (hmneg : ms.editedQuantity < 0 ∨ ms.editedPrice < 0) :
    ((handleSave u m now s store).store = store ∧
     (handleSave u m now s store).state = s ∧
     (∃ msg, (handleSave u m now s store).notices = [Notice.error msg])) ∧
    ((modalHandleSave ok now2 product ms store2).store = store2 ∧
     (modalHandleSave ok now2 product ms store2).state = ms ∧
     (∃ msg, (modalHandleSave ok now2 product ms store2).effects =
        [MEffect.notice (Notice.error msg)])) := by
  constructor
  · by_cases hq : s.editedQuantity < 0
    · exact ⟨by simp [handleSave, hp, hq], by simp [handleSave, hp, hq],
        ⟨"Количество товара не может быть отрицательным", by simp [handleSave, hp, hq]⟩⟩
    · have hpr : s.editedPrice < 0 := hneg.resolve_left hq
      exact ⟨by simp [handleSave, hp, hq, hpr], by simp [handleSave, hp, hq, hpr],
        ⟨"Цена товара не может быть отрицательной", by simp [handleSave, hp, hq, hpr]⟩⟩
  · by_cases hq : ms.editedQuantity < 0
    · exact ⟨by simp [modalHandleSave, hq], by simp [modalHandleSave, hq],
        ⟨"Количество не может быть отрицательным", by simp [modalHandleSave, hq]⟩⟩
    · have hpr : ms.editedPrice < 0 := hmneg.resolve_left hq
      exact ⟨by simp [modalHandleSave, hq, hpr], by simp [modalHandleSave, hq, hpr],
        ⟨"Цена не может быть отрицательной", by simp [modalHandleSave, hq, hpr]⟩⟩

/-- Witness for C2: the spec's scenario — quantity 10 edited to −1 in both
components is rejected with no change. -/
theorem C2_negative_save_rejected_witness :
    ((handleSave true true 1 { sampleDetailState with editedQuantity := -1 }
        sampleStore).store = sampleStore ∧
     (handleSave true true 1 { sampleDetailState with editedQuantity := -1 }
        sampleStore).state = { sampleDetailState with editedQuantity := -1 } ∧
     (∃ msg, (handleSave true true 1 { sampleDetailState with editedQuantity := -1 }
        sampleStore).notices = [Notice.error msg])) ∧
    ((modalHandleSave true 1 sampleProduct { sampleModalState with editedQuantity := -1 }
        sampleStore).store = sampleStore ∧
     (modalHandleSave true 1 sampleProduct { sampleModalState with editedQuantity := -1 }
        sampleStore).state = { sampleModalState with editedQuantity := -1 } ∧
     (∃ msg, (modalHandleSave true 1 sampleProduct
        { sampleModalState with editedQuantity := -1 } sampleStore).effects =
        [MEffect.notice (Notice.error msg)])) :=
  C2_negative_save_rejected true true 1 1 _ sampleStore sampleStore sampleProduct
    sampleProduct true _ rfl (Or.inl (by decide)) (Or.inl (by decide))

/-- Claim C9: a valid detail-view save whose edited quantity equals the current
quantity (no change, or a price-only change) still appends a movement record,
with quantity 0, direction `out`, and total price 0. -/
theorem C9_no_change_still_logs (now : Nat) (s : DetailState) (store : Store)
    (p : Product) (hp : s.product = some p) (heq : s.editedQuantity = p.quantity)
    (hq : 0 ≤ s.editedQuantity) (hpr : 0 ≤ s.editedPrice) :
    ∃ mv, (handleSave true true now s store).store.movements = store.movements ++ [mv] ∧
      mv.quantity = 0 ∧ mv.type = "out" ∧ mv.totalPrice = 0 := by
  refine ⟨mkMovement p s.editedQuantity s.editedPrice now, ?_, ?_, ?_, ?_⟩
  · simp [handleSave, hp, not_lt.mpr hq, not_lt.mpr hpr, updateProductDoc]
  · simp [mkMovement, heq]
  · simp [mkMovement, heq]
  · simp [mkMovement, heq]

/-- Witness for C9: a price-only edit (quantity stays 10, price 100 → 120)
appends a movement with quantity 0, type `out`, total price 0. -/
theorem C9_no_change_still_logs_witness :
    ∃ mv, (handleSave true true 1
        { sampleDetailState with editedQuantity := 10 } sampleStore).store.movements =
        sampleStore.movements ++ [mv] ∧
      mv.quantity = 0 ∧ mv.type = "out" ∧ mv.totalPrice = 0 :=
  C9_no_change_still_logs 1 { sampleDetailState with editedQuantity := 10 }
    sampleStore sampleProduct rfl (by decide) (by decide) (by decide)

/-- Counterexample to C1 as stated: a successful actions-menu inline save
(quantity 10 → 15 at price 120) shows the success toast, yet the movement log
is left empty — no Movement Record is appended for that edit. -/
theorem C1_counterexample :
    (modalHandleSave true 1 sampleProduct sampleModalState sampleStore).effects =
      [MEffect.notice (Notice.success "Товар успешно обновлен")] ∧
    ¬((modalHandleSave true 1 sampleProduct sampleModalState
        sampleStore).store.movements.length = sampleStore.movements.length + 1) :=
  ⟨rfl, by decide⟩

/-- Claim C1 (amended): a successful detail-view save appends exactly one
Movement Record, with delta `|newQty − prevQty|` and direction `in` if
`newQty > prevQty` else `out`; the actions-menu inline save updates the
product but appends no Movement Record. -/
theorem C1_amended_one_movement (now now2 : Nat) (s : DetailState)
    (store store2 : Store) (p product : Product) (ms : ModalState)
    (hp : s.product = some p) (hq : 0 ≤ s.editedQuantity) (hpr : 0 ≤ s.editedPrice)
    (hmq : 0 ≤ ms.editedQuantity) (hmp : 0 ≤ ms.editedPrice) :
    ((handleSave true true now s store).store.movements =
        store.movements ++ [mkMovement p s.editedQuantity s.editedPrice now] ∧
      (mkMovement p s.editedQuantity s.editedPrice now).quantity =
        |s.editedQuantity - p.quantity| ∧
      (mkMovement p s.editedQuantity s.editedPrice now).type =
        (if s.editedQuantity > p.quantity then "in" else "out")) ∧
    (modalHandleSave true now2 product ms store2).store.movements =
      store2.movements := by
  refine ⟨⟨?_, rfl, rfl⟩, ?_⟩
  · simp [handleSave, hp, not_lt.mpr hq, not_lt.mpr hpr, updateProductDoc]
  · simp [modalHandleSave, not_lt.mpr hmq, not_lt.mpr hmp, updateProductDoc]

/-- Witness for the amended C1: the spec's scenario 10 → 15 at price 120
appends one `in` record of delta 5 in the detail view, and the inline save
leaves the movement log unchanged. -/
theorem C1_amended_one_movement_witness :
    ((handleSave true true 1 sampleDetailState sampleStore).store.movements =
        sampleStore.movements ++ [mkMovement sampleProduct 15 120 1] ∧
      (mkMovement sampleProduct 15 120 1).quantity = |(15 : Int) - sampleProduct.quantity| ∧
      (mkMovement sampleProduct 15 120 1).type =
        (if (15 : Int) > sampleProduct.quantity then "in" else "out")) ∧
    (modalHandleSave true 1 sampleProduct sampleModalState sampleStore).store.movements =
      sampleStore.movements :=
  C1_amended_one_movement 1 1 sampleDetailState sampleStore sampleStore
    sampleProduct sampleProduct sampleModalState rfl (by decide) (by decide)
    (by decide) (by decide)

/-- Claim C3: a valid detail-view save first writes the product document
(quantity, price, derived total, timestamp), then appends one movement record
computed from previous vs. new values, then exits edit mode with a success
notification; the local product state is synchronized from the edited values
without a read-back. The last two conjuncts pin the order: in a run where the
movement append fails, the product document write has already happened. -/
theorem C3_detail_save_sequence (now : Nat) (s : DetailState) (store : Store)
    (p : Product) (hp : s.product = some p) (hq : 0 ≤ s.editedQuantity)
    (hpr : 0 ≤ s.editedPrice) :
    (handleSave true true now s store).store =
      { products := (updateProductDoc store p.id s.editedQuantity s.editedPrice
          (s.editedQuantity * s.editedPrice) now).products
        movements := store.movements ++ [mkMovement p s.editedQuantity s.editedPrice now] } ∧
    (handleSave true true now s store).state.isEditing = false ∧
    (handleSave true true now s store).notices =
      [Notice.success "Количество товара успешно обновлено"] ∧
    (handleSave true true now s store).state.product = some { p with
      quantity := s.editedQuantity
      averagePurchasePrice := s.editedPrice
      totalPurchasePrice := s.editedQuantity * s.editedPrice } ∧
    (handleSave true false now s store).store.products =
      (updateProductDoc store p.id s.editedQuantity s.editedPrice
        (s.editedQuantity * s.editedPrice) now).products ∧
    (handleSave true false now s store).store.movements = store.movements := by
  refine ⟨?_, ?_, ?_, ?_, ?_, ?_⟩ <;>
    simp [handleSave, hp, not_lt.mpr hq, not_lt.mpr hpr, updateProductDoc]

/-- Witness for C3: the spec's scenario (10, 100) → (15, 120). -/
theorem C3_detail_save_sequence_witness :
    (handleSave true true 1 sampleDetailState sampleStore).store =
      { products := (updateProductDoc sampleStore sampleProduct.id 15 120 (15 * 120) 1).products
        movements := sampleStore.movements ++ [mkMovement sampleProduct 15 120 1] } ∧
    (handleSave true true 1 sampleDetailState sampleStore).state.isEditing = false ∧
    (handleSave true true 1 sampleDetailState sampleStore).notices =
      [Notice.success "Количество товара успешно обновлено"] ∧
    (handleSave true true 1 sampleDetailState sampleStore).state.product =
      some { sampleProduct with
        quantity := 15, averagePurchasePrice := 120, totalPurchasePrice := 15 * 120 } ∧
    (handleSave true false 1 sampleDetailState sampleStore).store.products =
      (updateProductDoc sampleStore sampleProduct.id 15 120 (15 * 120) 1).products ∧
    (handleSave true false 1 sampleDetailState sampleStore).store.movements =
      sampleStore.movements :=
  C3_detail_save_sequence 1 sampleDetailState sampleStore sampleProduct rfl
    (by decide) (by decide)

/-- Claim C4: after a successful detail-view save the stored document's
total purchase price equals `editedQuantity * editedPrice`; the displayed
total equals the product's quantity times average price, recomputed at render
— it does not depend on the stored `totalPurchasePrice` field at all. -/
theorem C4_total_recomputed (now : Nat) (s : DetailState) (store : Store)
    (p : Product) (d : StoredProduct) (t : Int)
    (hp : s.product = some p) (hq : 0 ≤ s.editedQuantity) (hpr : 0 ≤ s.editedPrice)
    (hd : findDoc store p.id = some d) :
    findDoc (handleSave true true now s store).store p.id = some
      { quantity := s.editedQuantity, averagePurchasePrice := s.editedPrice,
        totalPurchasePrice := s.editedQuantity * s.editedPrice, updatedAt := now } ∧
    (∃ lp, (handleSave true true now s store).state.product = some lp ∧
      displayedTotal lp = lp.quantity * lp.averagePurchasePrice ∧
      displayedTotal lp = s.editedQuantity * s.editedPrice) ∧
    (∀ q : Product, displayedTotal { q with totalPurchasePrice := t } =
      displayedTotal q) := by
  refine ⟨?_, ?_, fun q => rfl⟩
  · have hstore : (handleSave true true now s store).store.products =
        (updateProductDoc store p.id s.editedQuantity s.editedPrice
          (s.editedQuantity * s.editedPrice) now).products := by
      simp [handleSave, hp, not_lt.mpr hq, not_lt.mpr hpr, updateProductDoc]
    have := findDoc_updateProductDoc store p.id s.editedQuantity s.editedPrice
      (s.editedQuantity * s.editedPrice) now d hd
    unfold findDoc at this ⊢
    rw [hstore]
    exact this
  · refine ⟨{ p with
        quantity := s.editedQuantity
        averagePurchasePrice := s.editedPrice
        totalPurchasePrice := s.editedQuantity * s.editedPrice }, ?_, rfl, rfl⟩
    simp [handleSave, hp, not_lt.mpr hq, not_lt.mpr hpr]

/-- Witness for C4: the scenario save stores total 1800 and the local product
displays 15 × 120 = 1800. -/
theorem C4_total_recomputed_witness :
    findDoc (handleSave true true 1 sampleDetailState sampleStore).store
      sampleProduct.id = some
      { quantity := 15, averagePurchasePrice := 120,
        totalPurchasePrice := 15 * 120, updatedAt := 1 } ∧
    (∃ lp, (handleSave true true 1 sampleDetailState sampleStore).state.product = some lp ∧
      displayedTotal lp = lp.quantity * lp.averagePurchasePrice ∧
      displayedTotal lp = 15 * 120) ∧
    (∀ q : Product, displayedTotal { q with totalPurchasePrice := (7 : Int) } =
      displayedTotal q) :=
  C4_total_recomputed 1 sampleDetailState sampleStore sampleProduct
    { quantity := 10, averagePurchasePrice := 100, totalPurchasePrice := 1000,
      updatedAt := 0 } 7 rfl (by decide) (by decide) (by decide)

/-- Claim C6: in both components, starting with the fields read-only, no
sequence of UI events turns editing on without a password-success callback,
and a dismissed challenge leaves the fields read-only. -/
theorem C6_edit_gated_by_password (es : List DEvent) (ms : List MEvent)
    (product : Product) (c : DetailState × Store) (mc : ModalState × Store)
    (hd : c.1.isEditing = false) (hm : mc.1.isEditing = false) :
    ((runDetail es c).1.isEditing = true → DEvent.passwordSuccess ∈ es) ∧
    ((runModal product ms mc).1.isEditing = true → MEvent.passwordSuccess ∈ ms) ∧
    (detailStep DEvent.passwordClose c).1.1.isEditing = false ∧
    (modalStep product MEvent.passwordClose mc).1.1.isEditing = false := by
  refine ⟨?_, ?_, ?_, ?_⟩
  · intro h
    have hr := runDetail_isEditing es c h
    simp [hd] at hr
    exact hr
  · intro h
    have hr := runModal_isEditing product ms mc h
    simp [hm] at hr
    exact hr
  · simpa [detailStep] using hd
  · simpa [modalStep] using hm

/-- Witness for C6: from the initial states, the sequence edit-click followed
by password success (and menu open first, for the modal). -/
theorem C6_edit_gated_by_password_witness :
    ((runDetail [DEvent.editClick, DEvent.passwordSuccess]
        (initialDetailState, sampleStore)).1.isEditing = true →
      DEvent.passwordSuccess ∈ [DEvent.editClick, DEvent.passwordSuccess]) ∧
    ((runModal sampleProduct [MEvent.openMenu, MEvent.clickEdit, MEvent.passwordSuccess]
        (initModal sampleProduct, sampleStore)).1.isEditing = true →
      MEvent.passwordSuccess ∈ [MEvent.openMenu, MEvent.clickEdit, MEvent.passwordSuccess]) ∧
    (detailStep DEvent.passwordClose (initialDetailState, sampleStore)).1.1.isEditing
      = false ∧
    (modalStep sampleProduct MEvent.passwordClose
      (initModal sampleProduct, sampleStore)).1.1.isEditing = false :=
  C6_edit_gated_by_password [DEvent.editClick, DEvent.passwordSuccess]
    [MEvent.openMenu, MEvent.clickEdit, MEvent.passwordSuccess] sampleProduct
    (initialDetailState, sampleStore) (initModal sampleProduct, sampleStore) rfl rfl

/-- Claim C7: a rejected store write during a save is caught at the call site
and surfaced as a generic error toast. If `updateDoc` rejects, nothing was
written and the state is untouched; if the movement `setDoc` rejects after a
successful product update, the product document is updated, no movement is
appended, the view stays in edit mode, and no success toast is shown. The
modal inline save behaves the same for its single write. -/
theorem C7_store_failure_contained (m : Bool) (now now2 : Nat) (s : DetailState)
    (store store2 : Store) (p product : Product) (ms : ModalState)
    (hp : s.product = some p) (hq : 0 ≤ s.editedQuantity) (hpr : 0 ≤ s.editedPrice)
    (hmq : 0 ≤ ms.editedQuantity) (hmp : 0 ≤ ms.editedPrice) :
    ((handleSave false m now s store).store = store ∧
     (handleSave false m now s store).state = s ∧
     (handleSave false m now s store).notices =
       [Notice.error "Ошибка при обновлении количества товара"]) ∧
    ((handleSave true false now s store).store.products =
       (updateProductDoc store p.id s.editedQuantity s.editedPrice
         (s.editedQuantity * s.editedPrice) now).products ∧
     (handleSave true false now s store).store.movements = store.movements ∧
     (handleSave true false now s store).state.isEditing = s.isEditing ∧
     (handleSave true false now s store).notices =
       [Notice.error "Ошибка при обновлении количества товара"]) ∧
    ((modalHandleSave false now2 product ms store2).store = store2 ∧
     (modalHandleSave false now2 product ms store2).state = ms ∧
     (modalHandleSave false now2 product ms store2).effects =
       [MEffect.notice (Notice.error "Ошибка при обновлении товара")]) := by
  refine ⟨⟨?_, ?_, ?_⟩, ⟨?_, ?_, ?_, ?_⟩, ⟨?_, ?_, ?_⟩⟩ <;>
    simp [handleSave, modalHandleSave, hp, not_lt.mpr hq, not_lt.mpr hpr,
      not_lt.mpr hmq, not_lt.mpr hmp, updateProductDoc]

/-- Witness for C7: the scenario edit with each write rejected in turn. -/
theorem C7_store_failure_contained_witness :
    ((handleSave false true 1 sampleDetailState sampleStore).store = sampleStore ∧
     (handleSave false true 1 sampleDetailState sampleStore).state = sampleDetailState ∧
     (handleSave false true 1 sampleDetailState sampleStore).notices =
       [Notice.error "Ошибка при обновлении количества товара"]) ∧
    ((handleSave true false 1 sampleDetailState sampleStore).store.products =
       (updateProductDoc sampleStore sampleProduct.id 15 120 (15 * 120) 1).products ∧
     (handleSave true false 1 sampleDetailState sampleStore).store.movements =
       sampleStore.movements ∧
     (handleSave true false 1 sampleDetailState sampleStore).state.isEditing =
       sampleDetailState.isEditing ∧
     (handleSave true false 1 sampleDetailState sampleStore).notices =
       [Notice.error "Ошибка при обновлении количества товара"]) ∧
    ((modalHandleSave false 1 sampleProduct sampleModalState sampleStore).store =
       sampleStore ∧
     (modalHandleSave false 1 sampleProduct sampleModalState sampleStore).state =
       sampleModalState ∧
     (modalHandleSave false 1 sampleProduct sampleModalState sampleStore).effects =
       [MEffect.notice (Notice.error "Ошибка при обновлении товара")]) :=
  C7_store_failure_contained true 1 1 sampleDetailState sampleStore sampleStore
    sampleProduct sampleProduct sampleModalState rfl (by decide) (by decide)
    (by decide) (by decide)

/-- Claim C8: the actions modal follows the spec's per-instance state machine:
Closed goes to MenuOpen on open; from MenuOpen, clicking edit awaits the
password and clicking an action opens its sub-dialog; closing a sub-dialog
returns to MenuOpen; closing the outer modal reaches Closed from anywhere;
from AwaitingPassword, only the success callback reaches EditingInline, and
dismissal returns to MenuOpen. -/
theorem C8_modal_state_machine (product : Product) (store : Store)
    (s1 s2 : ModalState) (e : MEvent)
    (h1 : modalPhase s1 = Phase.MenuOpen)
    (h2 : modalPhase s2 = Phase.AwaitingPassword)
    (h2d : anySubDialog s2 = false) :
    modalPhase (initModal product) = Phase.Closed ∧
    modalPhase (modalStep product MEvent.openMenu (initModal product, store)).1.1 =
      Phase.MenuOpen ∧
    modalPhase (modalStep product MEvent.clickEdit (s1, store)).1.1 =
      Phase.AwaitingPassword ∧
    modalPhase (modalStep product MEvent.clickExpense (s1, store)).1.1 =
      Phase.SubDialogOpen ∧
    modalPhase (modalStep product MEvent.closeExpense
      ((modalStep product MEvent.clickExpense (s1, store)).1)).1.1 = Phase.MenuOpen ∧
    (∀ t : ModalState,
      modalPhase (modalStep product MEvent.closeMenu (t, store)).1.1 = Phase.Closed) ∧
    modalPhase (modalStep product MEvent.passwordSuccess (s2, store)).1.1 =
      Phase.EditingInline ∧
    modalPhase (modalStep product MEvent.passwordClose (s2, store)).1.1 =
      Phase.MenuOpen ∧
    (modalPhase (modalStep product e (s2, store)).1.1 = Phase.EditingInline →
      e = MEvent.passwordSuccess) := by
  obtain ⟨ho1, he1, hpw1, hsd1⟩ := (modalPhase_menuOpen_iff s1).mp h1
  obtain ⟨ho2, he2, hpw2⟩ := (modalPhase_awaiting_iff s2).mp h2
  have hsub1 := hsd1
  unfold anySubDialog at hsub1
  have hsub2 := h2d
  unfold anySubDialog at hsub2
  simp only [Bool.or_eq_false_iff] at hsub1 hsub2
  refine ⟨rfl, rfl, ?_, ?_, ?_, fun t => by simp [modalStep, modalPhase], ?_, ?_, ?_⟩
  · simp [modalStep, modalPhase, ho1, he1]
  · simp [modalStep, modalPhase, anySubDialog, ho1, he1, hpw1]
  · simp [modalStep, modalPhase, anySubDialog, ho1, he1, hpw1,
      hsub1.1.1.1.1.1, hsub1.1.1.1.1.2, hsub1.1.1.1.2, hsub1.1.1.2, hsub1.1.2, hsub1.2]
  · simp [modalStep, modalPhase, ho2]
  · simp [modalStep, modalPhase, anySubDialog, ho2, he2,
      hsub2.1.1.1.1.1, hsub2.1.1.1.1.2, hsub2.1.1.1.2, hsub2.1.1.2, hsub2.1.2, hsub2.2]
  · intro hE
    have hEd := modalPhase_editing _ hE
    rcases modalStep_isEditing product e (s2, store) hEd with hcase | hcase
    · rw [he2] at hcase
      cases hcase
    · exact hcase

/-- Witness for C8: concrete menu-open and awaiting-password states over the
sample product, with the password-success event. -/
theorem C8_modal_state_machine_witness :
    modalPhase (initModal sampleProduct) = Phase.Closed ∧
    modalPhase (modalStep sampleProduct MEvent.openMenu
      (initModal sampleProduct, sampleStore)).1.1 = Phase.MenuOpen ∧
    modalPhase (modalStep sampleProduct MEvent.clickEdit
      ({ initModal sampleProduct with isOpen := true }, sampleStore)).1.1 =
      Phase.AwaitingPassword ∧
    modalPhase (modalStep sampleProduct MEvent.clickExpense
      ({ initModal sampleProduct with isOpen := true }, sampleStore)).1.1 =
      Phase.SubDialogOpen ∧
    modalPhase (modalStep sampleProduct MEvent.closeExpense
      ((modalStep sampleProduct MEvent.clickExpense
        ({ initModal sampleProduct with isOpen := true }, sampleStore)).1)).1.1 =
      Phase.MenuOpen ∧
    (∀ t : ModalState,
      modalPhase (modalStep sampleProduct MEvent.closeMenu (t, sampleStore)).1.1 =
        Phase.Closed) ∧
    modalPhase (modalStep sampleProduct MEvent.passwordSuccess
      ({ initModal sampleProduct with isOpen := true, showPasswordPrompt := true },
        sampleStore)).1.1 = Phase.EditingInline ∧
    modalPhase (modalStep sampleProduct MEvent.passwordClose
      ({ initModal sampleProduct with isOpen := true, showPasswordPrompt := true },
        sampleStore)).1.1 = Phase.MenuOpen ∧
    (modalPhase (modalStep sampleProduct MEvent.passwordSuccess
      ({ initModal sampleProduct with isOpen := true, showPasswordPrompt := true },
        sampleStore)).1.1 = Phase.EditingInline →
      MEvent.passwordSuccess = MEvent.passwordSuccess) :=
  C8_modal_state_machine sampleProduct sampleStore
    { initModal sampleProduct with isOpen := true }
    { initModal sampleProduct with isOpen := true, showPasswordPrompt := true }
    MEvent.passwordSuccess (by decide) (by decide) (by decide)

end App155
